import Mathlib

/-!
Shallow embedding of the ESPHome OTA client (`esphome/espota2.py`) and proofs
about its protocol engine, transport helpers, error decoder and progress
reporter.  Machine bytes are modelled as `Nat`, byte strings as `List Nat`,
the socket as an explicit stream of read results, and the engine as a pure
function from the device's responses to the trace of actions it performs.
-/

/-! ## Protocol constants (from the top of espota2.py) -/

def RESPONSE_OK : Nat := 0x00
def RESPONSE_REQUEST_AUTH : Nat := 0x01

def RESPONSE_HEADER_OK : Nat := 0x40
def RESPONSE_AUTH_OK : Nat := 0x41
def RESPONSE_UPDATE_PREPARE_OK : Nat := 0x42
def RESPONSE_BIN_MD5_OK : Nat := 0x43
def RESPONSE_RECEIVE_OK : Nat := 0x44
def RESPONSE_UPDATE_END_OK : Nat := 0x45
def RESPONSE_SUPPORTS_COMPRESSION : Nat := 0x46
def RESPONSE_CHUNK_OK : Nat := 0x47

def RESPONSE_ERROR_MAGIC : Nat := 0x80
def RESPONSE_ERROR_UPDATE_PREPARE : Nat := 0x81
def RESPONSE_ERROR_AUTH_INVALID : Nat := 0x82
def RESPONSE_ERROR_WRITING_FLASH : Nat := 0x83
def RESPONSE_ERROR_UPDATE_END : Nat := 0x84
def RESPONSE_ERROR_INVALID_BOOTSTRAPPING : Nat := 0x85
def RESPONSE_ERROR_WRONG_CURRENT_FLASH_CONFIG : Nat := 0x86
def RESPONSE_ERROR_WRONG_NEW_FLASH_CONFIG : Nat := 0x87
def RESPONSE_ERROR_ESP8266_NOT_ENOUGH_SPACE : Nat := 0x88
def RESPONSE_ERROR_ESP32_NOT_ENOUGH_SPACE : Nat := 0x89
def RESPONSE_ERROR_NO_UPDATE_PARTITION : Nat := 0x8A
def RESPONSE_ERROR_MD5_MISMATCH : Nat := 0x8B
def RESPONSE_ERROR_UNKNOWN : Nat := 0xFF

def OTA_VERSION_1_0 : Nat := 1
def OTA_VERSION_2_0 : Nat := 2

def MAGIC_BYTES : List Nat := [0x6C, 0x26, 0xF7, 0x5C, 0x45]

def FEATURE_SUPPORTS_COMPRESSION : Nat := 0x01

def UPLOAD_BLOCK_SIZE : Nat := 8192

/-! ## Error decoder (`check_error`)

Each `raise OTAError(...)` branch of the source becomes one constructor of
`ErrKind`; the final fall-through branch carries the raw byte, mirroring
the f-string `"Unexpected response from ESP: 0x{data[0]:02X}"`.  `data[0]`
on an empty buffer raises `IndexError` in Python, modelled by `indexErr`. -/

inductive ErrKind where
  | invalidMagic
  | updatePrepare
  | authInvalid
  | writingFlash
  | updateEnd
  | invalidBootstrapping
  | wrongCurrentFlashConfig
  | wrongNewFlashConfig
  | esp8266NotEnoughSpace
  | esp32NotEnoughSpace
  | noUpdatePartition
  | md5Mismatch
  | unknown
  | unexpected (b : Nat)
  deriving DecidableEq

inductive CheckResult where
  | ok
  | err (k : ErrKind)
  | indexErr
  deriving DecidableEq

def check_error (data : List Nat) (expect : List Nat) : CheckResult :=
  if expect = [] then .ok
  else
    match data with
    | [] => .indexErr
    | dat :: _ =>
      if dat = RESPONSE_ERROR_MAGIC then .err .invalidMagic
      else if dat = RESPONSE_ERROR_UPDATE_PREPARE then .err .updatePrepare
      else if dat = RESPONSE_ERROR_AUTH_INVALID then .err .authInvalid
      else if dat = RESPONSE_ERROR_WRITING_FLASH then .err .writingFlash
      else if dat = RESPONSE_ERROR_UPDATE_END then .err .updateEnd
      else if dat = RESPONSE_ERROR_INVALID_BOOTSTRAPPING then .err .invalidBootstrapping
      else if dat = RESPONSE_ERROR_WRONG_CURRENT_FLASH_CONFIG then .err .wrongCurrentFlashConfig
      else if dat = RESPONSE_ERROR_WRONG_NEW_FLASH_CONFIG then .err .wrongNewFlashConfig
      else if dat = RESPONSE_ERROR_ESP8266_NOT_ENOUGH_SPACE then .err .esp8266NotEnoughSpace
      else if dat = RESPONSE_ERROR_ESP32_NOT_ENOUGH_SPACE then .err .esp32NotEnoughSpace
      else if dat = RESPONSE_ERROR_NO_UPDATE_PARTITION then .err .noUpdatePartition
      else if dat = RESPONSE_ERROR_MD5_MISMATCH then .err .md5Mismatch
      else if dat = RESPONSE_ERROR_UNKNOWN then .err .unknown
      else if dat ∈ expect then .ok
      else .err (.unexpected dat)

/-! ## Transport: `recv_decode`, `receive_exactly`, `send_check`

The socket's read side is a stream: `stream k` is what the k-th call to
`sock.recv` yields — either an `OSError` or a batch of available bytes, of
which `recv n` consumes at most `n`.  `receive_exactly`'s unbounded
`while len(data) < amount` loop is given explicit fuel; `outOfFuel` marks
runs the Python loop would still be inside after that many reads. -/

inductive RecvOut where
  | bytes (b : List Nat)
  | oserr
  deriving DecidableEq

inductive RcvResult where
  | ok (data : List Nat)
  | ioFailure
  | protocolError (k : ErrKind)
  | indexError
  | outOfFuel
  deriving DecidableEq

structure RcvRes where
  result : RcvResult
  closed : Bool
  deriving DecidableEq

def recv_decode (stream : Nat → RecvOut) (k : Nat) (n : Nat) : RecvOut :=
  match stream k with
  | .oserr => .oserr
  | .bytes b => .bytes (b.take n)

def receiveLoop (stream : Nat → RecvOut) (amount : Nat) (k : Nat)
    (data : List Nat) (fuel : Nat) : RcvResult :=
  if amount ≤ data.length then .ok data
  else
    match fuel with
    | 0 => .outOfFuel
    | fuel + 1 =>
      match recv_decode stream k (amount - data.length) with
      | .oserr => .ioFailure
      | .bytes b => receiveLoop stream amount (k + 1) (data ++ b) fuel

def receive_exactly (stream : Nat → RecvOut) (amount : Nat)
    (expect : List Nat) (fuel : Nat) : RcvRes :=
  match recv_decode stream 0 1 with
  | .oserr => ⟨.ioFailure, false⟩
  | .bytes b =>
    match check_error b expect with
    | .indexErr => ⟨.indexError, false⟩
    | .err k => ⟨.protocolError k, true⟩
    | .ok => ⟨receiveLoop stream amount 1 b fuel, false⟩

/-- The values `send_check` serializes: a byte list, a single int, or text. -/
inductive SendData where
  | ints (l : List Nat)
  | int (n : Nat)
  | str (s : String)
  deriving DecidableEq

/-- UTF-8 encoding of the ASCII strings the engine sends (hex digests). -/
def strBytes (s : String) : List Nat := s.data.map Char.toNat

def serialize : SendData → List Nat
  | .ints l => l
  | .int n => [n]
  | .str s => strBytes s

inductive SendOut where
  | sent
  | oserr
  deriving DecidableEq

/-- `send_check`: serializes and writes; on `OSError` it raises an
`OTAError` without closing the socket.  Returns (error message?, closed). -/
def send_check (out : SendOut) (data : SendData) (msg : String) :
    Option String × Bool :=
  match out with
  | .sent => (none, false)
  | .oserr => (some ("Error sending " ++ msg), false)

/-! ## MD5 (`hashlib.md5`)

The client hashes with MD5 (RFC 1321) and sends digests as lowercase hex
text; the algorithm is implemented here over `Nat` with explicit masking
to 32 bits. -/

def MASK32 : Nat := 4294967295

def rotl32 (x n : Nat) : Nat := ((x <<< n) ||| (x >>> (32 - n))) &&& MASK32

def md5F (b c d : Nat) : Nat := (b &&& c) ||| ((b ^^^ MASK32) &&& d)
def md5G (b c d : Nat) : Nat := (d &&& b) ||| ((d ^^^ MASK32) &&& c)
def md5H (b c d : Nat) : Nat := b ^^^ c ^^^ d
def md5I (b c d : Nat) : Nat := c ^^^ (b ||| (d ^^^ MASK32))

def md5K : List Nat :=
  [3614090360, 3905402710, 606105819, 3250441966, 4118548399, 1200080426,
   2821735955, 4249261313, 1770035416, 2336552879, 4294925233, 2304563134,
   1804603682, 4254626195, 2792965006, 1236535329, 4129170786, 3225465664,
   643717713, 3921069994, 3593408605, 38016083, 3634488961, 3889429448,
   568446438, 3275163606, 4107603335, 1163531501, 2850285829, 4243563512,
   1735328473, 2368359562, 4294588738, 2272392833, 1839030562, 4259657740,
   2763975236, 1272893353, 4139469664, 3200236656, 681279174, 3936430074,
   3572445317, 76029189, 3654602809, 3873151461, 530742520, 3299628645,
   4096336452, 1126891415, 2878612391, 4237533241, 1700485571, 2399980690,
   4293915773, 2240044497, 1873313359, 4264355552, 2734768916, 1309151649,
   4149444226, 3174756917, 718787259, 3951481745]

def md5S : List Nat :=
  [7, 12, 17, 22, 7, 12, 17, 22, 7, 12, 17, 22, 7, 12, 17, 22,
   5, 9, 14, 20, 5, 9, 14, 20, 5, 9, 14, 20, 5, 9, 14, 20,
   4, 11, 16, 23, 4, 11, 16, 23, 4, 11, 16, 23, 4, 11, 16, 23,
   6, 10, 15, 21, 6, 10, 15, 21, 6, 10, 15, 21, 6, 10, 15, 21]

def word32le (bytes : List Nat) (i : Nat) : Nat :=
  bytes.getD (4 * i) 0 + bytes.getD (4 * i + 1) 0 * 256 +
    bytes.getD (4 * i + 2) 0 * 65536 + bytes.getD (4 * i + 3) 0 * 16777216

def md5Round (M : Nat → Nat) (st : Nat × Nat × Nat × Nat) (i : Nat) :
    Nat × Nat × Nat × Nat :=
  let (a, b, c, d) := st
  let f :=
    if i < 16 then md5F b c d
    else if i < 32 then md5G b c d
    else if i < 48 then md5H b c d
    else md5I b c d
  let g :=
    if i < 16 then i
    else if i < 32 then (5 * i + 1) % 16
    else if i < 48 then (3 * i + 5) % 16
    else (7 * i) % 16
  let tmp := (a + f + md5K.getD i 0 + M g) &&& MASK32
  let nb := (b + rotl32 tmp (md5S.getD i 0)) &&& MASK32
  (d, nb, b, c)

def md5Chunk (st : Nat × Nat × Nat × Nat) (chunk : List Nat) :
    Nat × Nat × Nat × Nat :=
  let (a0, b0, c0, d0) := st
  let (a, b, c, d) := (List.range 64).foldl (md5Round (word32le chunk)) st
  ((a0 + a) &&& MASK32, (b0 + b) &&& MASK32, (c0 + c) &&& MASK32,
   (d0 + d) &&& MASK32)

/-- Split a byte list into consecutive blocks of `n` bytes (last may be
shorter); for `n = 0` it peels one byte at a time. -/
def chunksOfAux (n : Nat) : Nat → List Nat → List (List Nat)
  | _, [] => []
  | 0, _ :: _ => []
  | fuel + 1, x :: xs =>
    (x :: xs.take (n - 1)) :: chunksOfAux n fuel (xs.drop (n - 1))

def chunksOf (n : Nat) (l : List Nat) : List (List Nat) :=
  chunksOfAux n l.length l

theorem chunksOfAux_fuel (n : Nat) :
    ∀ (f1 : Nat), ∀ (f2 : Nat) (l : List Nat), l.length ≤ f1 →
      l.length ≤ f2 → chunksOfAux n f1 l = chunksOfAux n f2 l := by
  intro f1
  induction f1 with
  | zero =>
    intro f2 l h1 h2
    have : l = [] := List.length_eq_zero.mp (Nat.le_zero.mp h1)
    subst this
    cases f2 <;> rfl
  | succ f1 ih =>
    intro f2 l h1 h2
    cases l with
    | nil => cases f2 <;> rfl
    | cons x xs =>
      cases f2 with
      | zero => simp at h2
      | succ f2 =>
        rw [chunksOfAux, chunksOfAux]
        have hd : (xs.drop (n - 1)).length ≤ xs.length := by
          simp [List.length_drop]
        simp only [List.length_cons] at h1 h2
        rw [ih f2 (xs.drop (n - 1)) (by omega) (by omega)]

theorem chunksOf_nil (n : Nat) : chunksOf n [] = [] := rfl

theorem chunksOf_cons (n : Nat) (x : Nat) (xs : List Nat) :
    chunksOf n (x :: xs) =
      (x :: xs.take (n - 1)) :: chunksOf n (xs.drop (n - 1)) := by
  unfold chunksOf
  rw [show (x :: xs).length = xs.length + 1 from rfl, chunksOfAux]
  have hd : (xs.drop (n - 1)).length ≤ xs.length := by
    simp [List.length_drop]
  rw [chunksOfAux_fuel n xs.length (xs.drop (n - 1)).length (xs.drop (n - 1))
    hd (Nat.le_refl _)]

def md5Pad (msg : List Nat) : List Nat :=
  let len := msg.length
  let zeros := (120 - ((len + 1) % 64)) % 64
  let bitLen := (8 * len) % 18446744073709551616
  msg ++ [128] ++ List.replicate zeros 0 ++
    [bitLen &&& 255, (bitLen >>> 8) &&& 255, (bitLen >>> 16) &&& 255,
     (bitLen >>> 24) &&& 255, (bitLen >>> 32) &&& 255,
     (bitLen >>> 40) &&& 255, (bitLen >>> 48) &&& 255,
     (bitLen >>> 56) &&& 255]

def le4 (x : Nat) : List Nat :=
  [x &&& 255, (x >>> 8) &&& 255, (x >>> 16) &&& 255, (x >>> 24) &&& 255]

def md5Bytes (msg : List Nat) : List Nat :=
  let st := (chunksOf 64 (md5Pad msg)).foldl md5Chunk
    (1732584193, 4023233417, 2562383102, 271733878)
  le4 st.1 ++ le4 st.2.1 ++ le4 st.2.2.1 ++ le4 st.2.2.2

/-- Lowercase hex digit. -/
def hexDigit (n : Nat) : Char := if n < 10 then Char.ofNat (48 + n) else Char.ofNat (87 + n)

def byteHex (b : Nat) : List Char := [hexDigit (b / 16), hexDigit (b % 16)]

/-- `hashlib.md5(msg).hexdigest()`: the 32-character lowercase hex text of
the 128-bit MD5 digest. -/
def md5hex (msg : List Nat) : String :=
  String.mk ((md5Bytes msg).foldr (fun b acc => byteHex b ++ acc) [])

/-! ## Protocol engine (`perform_ota`)

The engine is modelled as a pure function from the device's responses to
the ordered trace of externally visible actions and a final outcome.  Each
`receive_exactly(sock, ...)` call in the source consumes one device
response: the device offers its bytes on the first `recv` of that call and
the remainder on the next, which is `respStream` below; `engineRecv` is
then literally `receive_exactly` run on that stream with enough fuel. -/

inductive Act where
  | send (label : String) (data : List Nat)
  | recvA (label : String) (amount : Nat)
  | sendChunk (chunk : List Nat)
  | progressUpdate (fraction : ℚ)
  | progressDone
  deriving DecidableEq

inductive OtaOutcome where
  | success
  | otaError (msg : String)
  | protocolFail (label : String) (k : ErrKind)
  | ioFail (label : String)
  | crash
  | hang
  deriving DecidableEq

/-- The device's reply to one `receive_exactly` call, delivered as the
corresponding sequence of `recv` results. -/
def respStream (r : RecvOut) : Nat → RecvOut :=
  fun k =>
    match r with
    | .oserr => .oserr
    | .bytes b =>
      if k = 0 then .bytes b
      else if k = 1 then .bytes (b.drop 1)
      else .bytes []

def engineRecv (r : RecvOut) (amount : Nat) (expect : List Nat) : RcvRes :=
  receive_exactly (respStream r) amount expect (amount + 1)

/-- One `receive_exactly` call inside the engine: record the read, then
either continue with the data or abort with the corresponding failure. -/
def recvStep (r : RecvOut) (amount : Nat) (label : String)
    (expect : List Nat) (k : List Nat → List Act × OtaOutcome) :
    List Act × OtaOutcome :=
  match (engineRecv r amount expect).result with
  | .ok data =>
    let rest := k data
    (.recvA label amount :: rest.1, rest.2)
  | .ioFailure => ([.recvA label amount], .ioFail label)
  | .protocolError e => ([.recvA label amount], .protocolFail label e)
  | .indexError => ([.recvA label amount], .crash)
  | .outOfFuel => ([.recvA label amount], .hang)

/-- Prepend one action to a continuation's trace. -/
def emit (a : Act) (rest : List Act × OtaOutcome) :
    List Act × OtaOutcome :=
  (a :: rest.1, rest.2)

/-- All responses the device may produce during one upload attempt, one
field per `receive_exactly` call site in `perform_ota`. -/
structure DeviceResponses where
  version : RecvOut
  features : RecvOut
  auth : RecvOut
  nonce : RecvOut
  authResult : RecvOut
  prepare : RecvOut
  checksum : RecvOut
  chunkAcks : Nat → RecvOut
  receiveOk : RecvOut
  updateEnd : RecvOut

/-- `upload_size_encoded`: the payload length as 4 big-endian bytes. -/
def upload_size_encoded (upload_size : Nat) : List Nat :=
  [(upload_size >>> 24) &&& 0xFF, (upload_size >>> 16) &&& 0xFF,
   (upload_size >>> 8) &&& 0xFF, (upload_size >>> 0) &&& 0xFF]

/-- The chunk-transfer loop: successive 8 KiB slices of the payload; write
the chunk, for version ≥ 2 read one "chunk OK" byte, then update progress
with offset / upload_size.  Returns the loop's trace and `some outcome` if
it aborted, `none` if the payload was exhausted. -/
def transferLoop (version : Nat) (upload_size : Nat)
    (chunkAcks : Nat → RecvOut) (contents : List Nat)
    (offset : Nat) (ackIdx : Nat) : List Act × Option OtaOutcome :=
  match contents with
  | [] => ([], none)
  | x :: xs =>
    let chunk := (x :: xs).take UPLOAD_BLOCK_SIZE
    let off := offset + chunk.length
    if OTA_VERSION_2_0 ≤ version then
      match (engineRecv (chunkAcks ackIdx) 1 [RESPONSE_CHUNK_OK]).result with
      | .ok _ =>
        let rest := transferLoop version upload_size chunkAcks
          ((x :: xs).drop UPLOAD_BLOCK_SIZE) off (ackIdx + 1)
        (.sendChunk chunk :: .recvA "chunk OK" 1 ::
          .progressUpdate ((off : ℚ) / (upload_size : ℚ)) :: rest.1, rest.2)
      | .ioFailure =>
        ([.sendChunk chunk, .recvA "chunk OK" 1], some (.ioFail "chunk OK"))
      | .protocolError e =>
        ([.sendChunk chunk, .recvA "chunk OK" 1],
         some (.protocolFail "chunk OK" e))
      | .indexError => ([.sendChunk chunk, .recvA "chunk OK" 1], some .crash)
      | .outOfFuel => ([.sendChunk chunk, .recvA "chunk OK" 1], some .hang)
    else
      let rest := transferLoop version upload_size chunkAcks
        ((x :: xs).drop UPLOAD_BLOCK_SIZE) off (ackIdx + 1)
      (.sendChunk chunk ::
        .progressUpdate ((off : ℚ) / (upload_size : ℚ)) :: rest.1, rest.2)
  termination_by contents.length
  decreasing_by
    all_goals simp [UPLOAD_BLOCK_SIZE]; omega

/-- Finalize: read "receive OK" and "Update end", send the final ack. -/
def otaFinalize (r : DeviceResponses) : List Act × OtaOutcome :=
  recvStep r.receiveOk 1 "receive OK" [RESPONSE_RECEIVE_OK] fun _ =>
  recvStep r.updateEnd 1 "Update end" [RESPONSE_UPDATE_END_OK] fun _ =>
  ([.send "end acknowledgement" [RESPONSE_OK]], .success)

/-- PrepareUpdate, ChecksumExchange, Transfer, then Finalize. -/
def otaUpload (version : Nat) (upload_contents : List Nat)
    (r : DeviceResponses) : List Act × OtaOutcome :=
  let upload_size := upload_contents.length
  emit (.send "binary size" (upload_size_encoded upload_size)) <|
  recvStep r.prepare 1 "binary size" [RESPONSE_UPDATE_PREPARE_OK] fun _ =>
  emit (.send "file checksum" (strBytes (md5hex upload_contents))) <|
  recvStep r.checksum 1 "file checksum" [RESPONSE_BIN_MD5_OK] fun _ =>
  let loop := transferLoop version upload_size r.chunkAcks upload_contents 0 0
  match loop.2 with
  | some o => (loop.1, o)
  | none => (loop.1 ++ [.progressDone] ++ (otaFinalize r).1, (otaFinalize r).2)

/-- The Auth step: on auth-requested, fail without a password, otherwise
read the 32-byte nonce, send the client nonce and the response digest. -/
def otaAuth (password : String) (randomVal : String) (version : Nat)
    (upload_contents : List Nat) (r : DeviceResponses) :
    List Act × OtaOutcome :=
  recvStep r.auth 1 "auth" [RESPONSE_REQUEST_AUTH, RESPONSE_AUTH_OK] fun adata =>
  match adata with
  | [auth] =>
    if auth = RESPONSE_REQUEST_AUTH then
      if password = "" then
        ([], .otaError "ESP requests password, but no password given!")
      else
        recvStep r.nonce 32 "authentication nonce" [] fun nonce =>
        let cnonce := md5hex (strBytes randomVal)
        emit (.send "auth cnonce" (strBytes cnonce)) <|
        let result := md5hex (strBytes password ++ nonce ++ strBytes cnonce)
        emit (.send "auth result" (strBytes result)) <|
        recvStep r.authResult 1 "auth result" [RESPONSE_AUTH_OK] fun _ =>
        otaUpload version upload_contents r
    else otaUpload version upload_contents r
  | _ => ([], .crash)

/-- `perform_ota`, as a function of the gzip collaborator, the password,
the firmware bytes, the `random.random()` seam (as the string that is
hashed into the client nonce) and the device's responses. -/
def perform_ota (gzipCompress : List Nat → List Nat) (password : String)
    (file_contents : List Nat) (randomVal : String) (r : DeviceResponses) :
    List Act × OtaOutcome :=
  emit (.send "magic bytes" MAGIC_BYTES) <|
  recvStep r.version 2 "version" [RESPONSE_OK] fun vdata =>
  match vdata with
  | [_, version] =>
    if version ∈ [OTA_VERSION_1_0, OTA_VERSION_2_0] then
      emit (.send "features" [FEATURE_SUPPORTS_COMPRESSION]) <|
      recvStep r.features 1 "features"
        [RESPONSE_HEADER_OK, RESPONSE_SUPPORTS_COMPRESSION] fun fdata =>
      match fdata with
      | features :: _ =>
        let upload_contents :=
          if features = RESPONSE_SUPPORTS_COMPRESSION then
            gzipCompress file_contents
          else file_contents
        otaAuth password randomVal version upload_contents r
      | [] => ([], .crash)
    else ([], .otaError "Device uses unsupported OTA version")
  | _ => ([], .crash)

/-! ## Progress reporter (`ProgressBar`)

`update` takes a fraction (a float in the source, embedded as `ℚ`), clamps
it at 1, truncates `progress * 100` to an integer as Python `int()` does,
and redraws only when that integer changed; the state is the last rendered
percentage (`None` before the first render).  `ProgressBar_update` returns
the new state together with the percentage rendered by this call, if any. -/

def pyInt (q : ℚ) : ℤ := if 0 ≤ q then ⌊q⌋ else ⌈q⌉

def ProgressBar_update (last_progress : Option ℤ) (progress : ℚ) :
    Option ℤ × Option ℤ :=
  let progress := if 1 ≤ progress then 1 else progress
  let new_progress := pyInt (progress * 100)
  if some new_progress = last_progress then (last_progress, none)
  else (some new_progress, some new_progress)

/-- The percentages rendered by a sequence of `update` calls. -/
def progressRenders (last_progress : Option ℤ) : List ℚ → List ℤ
  | [] => []
  | q :: qs =>
    match ProgressBar_update last_progress q with
    | (st, none) => progressRenders st qs
    | (st, some p) => p :: progressRenders st qs

/-! ## Spec-side definitions

`classifySpec` restates the specification's description of the error
decoder (12 fixed diagnostics, the catch-all 0xFF, membership in the
expected set) as a lookup table, to be compared with `check_error`;
`chunkTrace` restates the specification's description of one Transfer
iteration (chunk, then one "chunk OK" read when version ≥ 2, then a
progress update). -/

def errorTable : List (Nat × ErrKind) :=
  [(0x80, .invalidMagic), (0x81, .updatePrepare), (0x82, .authInvalid),
   (0x83, .writingFlash), (0x84, .updateEnd), (0x85, .invalidBootstrapping),
   (0x86, .wrongCurrentFlashConfig), (0x87, .wrongNewFlashConfig),
   (0x88, .esp8266NotEnoughSpace), (0x89, .esp32NotEnoughSpace),
   (0x8A, .noUpdatePartition), (0x8B, .md5Mismatch), (0xFF, .unknown)]

def classifySpec (b : Nat) (expect : List Nat) : CheckResult :=
  if expect = [] then .ok
  else
    match errorTable.lookup b with
    | some k => .err k
    | none => if b ∈ expect then .ok else .err (.unexpected b)

def chunkTrace (version : Nat) (upload_size : Nat) :
    List (List Nat) → Nat → List Act
  | [], _ => []
  | c :: cs, offset =>
    .sendChunk c ::
      ((if OTA_VERSION_2_0 ≤ version then [Act.recvA "chunk OK" 1] else []) ++
        .progressUpdate (((offset + c.length : Nat) : ℚ) / (upload_size : ℚ)) ::
          chunkTrace version upload_size cs (offset + c.length))

/-! ## Trace projections -/

/-- The first payload sent with the given `send_check` label. -/
def sentData (label : String) : List Act → Option (List Nat)
  | [] => none
  | .send l d :: rest => if l = label then some d else sentData label rest
  | _ :: rest => sentData label rest

/-- Number of per-chunk acknowledgement reads in a trace. -/
def countChunkAcks (tr : List Act) : Nat :=
  tr.count (.recvA "chunk OK" 1)

def Act.isSendChunk : Act → Bool
  | .sendChunk _ => true
  | _ => false

def Act.isProgressUpdate : Act → Bool
  | .progressUpdate _ => true
  | _ => false

/-! ## Helper lemmas -/

theorem receiveLoop_cases (fuel : Nat) :
    ∀ (stream : Nat → RecvOut) (amount k : Nat) (data : List Nat),
    (∃ d, receiveLoop stream amount k data fuel = .ok d) ∨
      receiveLoop stream amount k data fuel = .ioFailure ∨
      receiveLoop stream amount k data fuel = .outOfFuel := by
  induction fuel with
  | zero =>
    intro stream amount k data
    rw [receiveLoop]
    split
    · exact Or.inl ⟨data, rfl⟩
    · exact Or.inr (Or.inr rfl)
  | succ fuel ih =>
    intro stream amount k data
    rw [receiveLoop]
    split
    · exact Or.inl ⟨data, rfl⟩
    · cases h : recv_decode stream k (amount - data.length) with
      | oserr => simp [h]
      | bytes b => simpa [h] using ih stream amount (k + 1) (data ++ b)

theorem engineRecv_oserr (amount : Nat) (expect : List Nat) :
    engineRecv .oserr amount expect = ⟨.ioFailure, false⟩ := rfl

theorem engineRecv_err (b : List Nat) (amount : Nat) (expect : List Nat)
    (e : ErrKind) (h3 : check_error (b.take 1) expect = .err e) :
    engineRecv (.bytes b) amount expect = ⟨.protocolError e, true⟩ := by
  unfold engineRecv receive_exactly
  have hrd0 : recv_decode (respStream (.bytes b)) 0 1 = .bytes (b.take 1) := by
    simp [recv_decode, respStream]
  rw [hrd0]
  dsimp only
  rw [h3]

theorem engineRecv_ok (b : List Nat) (amount : Nat) (expect : List Nat)
    (h1 : 1 ≤ amount) (h2 : amount ≤ b.length)
    (h3 : check_error (b.take 1) expect = .ok) :
    engineRecv (.bytes b) amount expect = ⟨.ok (b.take amount), false⟩ := by
  have hb1 : (b.take 1).length = 1 := by
    simp only [List.length_take]
    omega
  unfold engineRecv receive_exactly
  have hrd0 : recv_decode (respStream (.bytes b)) 0 1 = .bytes (b.take 1) := by
    simp [recv_decode, respStream]
  rw [hrd0]
  dsimp only
  rw [h3]
  have hloop : receiveLoop (respStream (.bytes b)) amount 1 (b.take 1)
      (amount + 1) = .ok (b.take amount) := by
    by_cases ha : amount = 1
    · subst ha
      rw [receiveLoop.eq_def, if_pos (by omega)]
    · have ha2 : 2 ≤ amount := by omega
      rw [receiveLoop.eq_def, if_neg (by omega)]
      have hrd1 : recv_decode (respStream (.bytes b)) 1
          (amount - (b.take 1).length) = .bytes ((b.drop 1).take (amount - 1)) := by
        simp [recv_decode, respStream, hb1]
      rw [hrd1]
      dsimp only
      have hdata : b.take 1 ++ (b.drop 1).take (amount - 1) = b.take amount := by
        rw [← List.take_add]
        congr 1
        omega
      rw [hdata, receiveLoop.eq_def, if_pos]
      simp only [List.length_take]
      omega
  rw [hloop]

theorem sentData_append (label : String) (xs ys : List Act) :
    sentData label (xs ++ ys) =
      match sentData label xs with
      | some d => some d
      | none => sentData label ys := by
  induction xs with
  | nil => simp [sentData]
  | cons a rest ih =>
    cases a with
    | send l d =>
      by_cases hl : l = label
      · simp [sentData, hl]
      · simp [sentData, hl, ih]
    | recvA l n => simpa [sentData] using ih
    | sendChunk c => simpa [sentData] using ih
    | progressUpdate q => simpa [sentData] using ih
    | progressDone => simpa [sentData] using ih

/-! ## Claims -/

theorem check_error_eq_classifySpec (b : Nat) (expect : List Nat) :
    check_error [b] expect = classifySpec b expect := by
  by_cases he : expect = []
  · simp [check_error, classifySpec, he]
  by_cases h0 : b = 0x80
  · subst h0
    simp [check_error, classifySpec, List.lookup, he, errorTable, RESPONSE_ERROR_MAGIC, RESPONSE_ERROR_UPDATE_PREPARE, RESPONSE_ERROR_AUTH_INVALID, RESPONSE_ERROR_WRITING_FLASH, RESPONSE_ERROR_UPDATE_END, RESPONSE_ERROR_INVALID_BOOTSTRAPPING, RESPONSE_ERROR_WRONG_CURRENT_FLASH_CONFIG, RESPONSE_ERROR_WRONG_NEW_FLASH_CONFIG, RESPONSE_ERROR_ESP8266_NOT_ENOUGH_SPACE, RESPONSE_ERROR_ESP32_NOT_ENOUGH_SPACE, RESPONSE_ERROR_NO_UPDATE_PARTITION, RESPONSE_ERROR_MD5_MISMATCH, RESPONSE_ERROR_UNKNOWN]
  by_cases h1 : b = 0x81
  · subst h1
    simp [check_error, classifySpec, List.lookup, he, errorTable, RESPONSE_ERROR_MAGIC, RESPONSE_ERROR_UPDATE_PREPARE, RESPONSE_ERROR_AUTH_INVALID, RESPONSE_ERROR_WRITING_FLASH, RESPONSE_ERROR_UPDATE_END, RESPONSE_ERROR_INVALID_BOOTSTRAPPING, RESPONSE_ERROR_WRONG_CURRENT_FLASH_CONFIG, RESPONSE_ERROR_WRONG_NEW_FLASH_CONFIG, RESPONSE_ERROR_ESP8266_NOT_ENOUGH_SPACE, RESPONSE_ERROR_ESP32_NOT_ENOUGH_SPACE, RESPONSE_ERROR_NO_UPDATE_PARTITION, RESPONSE_ERROR_MD5_MISMATCH, RESPONSE_ERROR_UNKNOWN]
  by_cases h2 : b = 0x82
  · subst h2
    simp [check_error, classifySpec, List.lookup, he, errorTable, RESPONSE_ERROR_MAGIC, RESPONSE_ERROR_UPDATE_PREPARE, RESPONSE_ERROR_AUTH_INVALID, RESPONSE_ERROR_WRITING_FLASH, RESPONSE_ERROR_UPDATE_END, RESPONSE_ERROR_INVALID_BOOTSTRAPPING, RESPONSE_ERROR_WRONG_CURRENT_FLASH_CONFIG, RESPONSE_ERROR_WRONG_NEW_FLASH_CONFIG, RESPONSE_ERROR_ESP8266_NOT_ENOUGH_SPACE, RESPONSE_ERROR_ESP32_NOT_ENOUGH_SPACE, RESPONSE_ERROR_NO_UPDATE_PARTITION, RESPONSE_ERROR_MD5_MISMATCH, RESPONSE_ERROR_UNKNOWN]
  by_cases h3 : b = 0x83
  · subst h3
    simp [check_error, classifySpec, List.lookup, he, errorTable, RESPONSE_ERROR_MAGIC, RESPONSE_ERROR_UPDATE_PREPARE, RESPONSE_ERROR_AUTH_INVALID, RESPONSE_ERROR_WRITING_FLASH, RESPONSE_ERROR_UPDATE_END, RESPONSE_ERROR_INVALID_BOOTSTRAPPING, RESPONSE_ERROR_WRONG_CURRENT_FLASH_CONFIG, RESPONSE_ERROR_WRONG_NEW_FLASH_CONFIG, RESPONSE_ERROR_ESP8266_NOT_ENOUGH_SPACE, RESPONSE_ERROR_ESP32_NOT_ENOUGH_SPACE, RESPONSE_ERROR_NO_UPDATE_PARTITION, RESPONSE_ERROR_MD5_MISMATCH, RESPONSE_ERROR_UNKNOWN]
  by_cases h4 : b = 0x84
  · subst h4
    simp [check_error, classifySpec, List.lookup, he, errorTable, RESPONSE_ERROR_MAGIC, RESPONSE_ERROR_UPDATE_PREPARE, RESPONSE_ERROR_AUTH_INVALID, RESPONSE_ERROR_WRITING_FLASH, RESPONSE_ERROR_UPDATE_END, RESPONSE_ERROR_INVALID_BOOTSTRAPPING, RESPONSE_ERROR_WRONG_CURRENT_FLASH_CONFIG, RESPONSE_ERROR_WRONG_NEW_FLASH_CONFIG, RESPONSE_ERROR_ESP8266_NOT_ENOUGH_SPACE, RESPONSE_ERROR_ESP32_NOT_ENOUGH_SPACE, RESPONSE_ERROR_NO_UPDATE_PARTITION, RESPONSE_ERROR_MD5_MISMATCH, RESPONSE_ERROR_UNKNOWN]
  by_cases h5 : b = 0x85
  · subst h5
    simp [check_error, classifySpec, List.lookup, he, errorTable, RESPONSE_ERROR_MAGIC, RESPONSE_ERROR_UPDATE_PREPARE, RESPONSE_ERROR_AUTH_INVALID, RESPONSE_ERROR_WRITING_FLASH, RESPONSE_ERROR_UPDATE_END, RESPONSE_ERROR_INVALID_BOOTSTRAPPING, RESPONSE_ERROR_WRONG_CURRENT_FLASH_CONFIG, RESPONSE_ERROR_WRONG_NEW_FLASH_CONFIG, RESPONSE_ERROR_ESP8266_NOT_ENOUGH_SPACE, RESPONSE_ERROR_ESP32_NOT_ENOUGH_SPACE, RESPONSE_ERROR_NO_UPDATE_PARTITION, RESPONSE_ERROR_MD5_MISMATCH, RESPONSE_ERROR_UNKNOWN]
  by_cases h6 : b = 0x86
  · subst h6
    simp [check_error, classifySpec, List.lookup, he, errorTable, RESPONSE_ERROR_MAGIC, RESPONSE_ERROR_UPDATE_PREPARE, RESPONSE_ERROR_AUTH_INVALID, RESPONSE_ERROR_WRITING_FLASH, RESPONSE_ERROR_UPDATE_END, RESPONSE_ERROR_INVALID_BOOTSTRAPPING, RESPONSE_ERROR_WRONG_CURRENT_FLASH_CONFIG, RESPONSE_ERROR_WRONG_NEW_FLASH_CONFIG, RESPONSE_ERROR_ESP8266_NOT_ENOUGH_SPACE, RESPONSE_ERROR_ESP32_NOT_ENOUGH_SPACE, RESPONSE_ERROR_NO_UPDATE_PARTITION, RESPONSE_ERROR_MD5_MISMATCH, RESPONSE_ERROR_UNKNOWN]
  by_cases h7 : b = 0x87
  · subst h7
    simp [check_error, classifySpec, List.lookup, he, errorTable, RESPONSE_ERROR_MAGIC, RESPONSE_ERROR_UPDATE_PREPARE, RESPONSE_ERROR_AUTH_INVALID, RESPONSE_ERROR_WRITING_FLASH, RESPONSE_ERROR_UPDATE_END, RESPONSE_ERROR_INVALID_BOOTSTRAPPING, RESPONSE_ERROR_WRONG_CURRENT_FLASH_CONFIG, RESPONSE_ERROR_WRONG_NEW_FLASH_CONFIG, RESPONSE_ERROR_ESP8266_NOT_ENOUGH_SPACE, RESPONSE_ERROR_ESP32_NOT_ENOUGH_SPACE, RESPONSE_ERROR_NO_UPDATE_PARTITION, RESPONSE_ERROR_MD5_MISMATCH, RESPONSE_ERROR_UNKNOWN]
  by_cases h8 : b = 0x88
  · subst h8
    simp [check_error, classifySpec, List.lookup, he, errorTable, RESPONSE_ERROR_MAGIC, RESPONSE_ERROR_UPDATE_PREPARE, RESPONSE_ERROR_AUTH_INVALID, RESPONSE_ERROR_WRITING_FLASH, RESPONSE_ERROR_UPDATE_END, RESPONSE_ERROR_INVALID_BOOTSTRAPPING, RESPONSE_ERROR_WRONG_CURRENT_FLASH_CONFIG, RESPONSE_ERROR_WRONG_NEW_FLASH_CONFIG, RESPONSE_ERROR_ESP8266_NOT_ENOUGH_SPACE, RESPONSE_ERROR_ESP32_NOT_ENOUGH_SPACE, RESPONSE_ERROR_NO_UPDATE_PARTITION, RESPONSE_ERROR_MD5_MISMATCH, RESPONSE_ERROR_UNKNOWN]
  by_cases h9 : b = 0x89
  · subst h9
    simp [check_error, classifySpec, List.lookup, he, errorTable, RESPONSE_ERROR_MAGIC, RESPONSE_ERROR_UPDATE_PREPARE, RESPONSE_ERROR_AUTH_INVALID, RESPONSE_ERROR_WRITING_FLASH, RESPONSE_ERROR_UPDATE_END, RESPONSE_ERROR_INVALID_BOOTSTRAPPING, RESPONSE_ERROR_WRONG_CURRENT_FLASH_CONFIG, RESPONSE_ERROR_WRONG_NEW_FLASH_CONFIG, RESPONSE_ERROR_ESP8266_NOT_ENOUGH_SPACE, RESPONSE_ERROR_ESP32_NOT_ENOUGH_SPACE, RESPONSE_ERROR_NO_UPDATE_PARTITION, RESPONSE_ERROR_MD5_MISMATCH, RESPONSE_ERROR_UNKNOWN]
  by_cases h10 : b = 0x8A
  · subst h10
    simp [check_error, classifySpec, List.lookup, he, errorTable, RESPONSE_ERROR_MAGIC, RESPONSE_ERROR_UPDATE_PREPARE, RESPONSE_ERROR_AUTH_INVALID, RESPONSE_ERROR_WRITING_FLASH, RESPONSE_ERROR_UPDATE_END, RESPONSE_ERROR_INVALID_BOOTSTRAPPING, RESPONSE_ERROR_WRONG_CURRENT_FLASH_CONFIG, RESPONSE_ERROR_WRONG_NEW_FLASH_CONFIG, RESPONSE_ERROR_ESP8266_NOT_ENOUGH_SPACE, RESPONSE_ERROR_ESP32_NOT_ENOUGH_SPACE, RESPONSE_ERROR_NO_UPDATE_PARTITION, RESPONSE_ERROR_MD5_MISMATCH, RESPONSE_ERROR_UNKNOWN]
  by_cases h11 : b = 0x8B
  · subst h11
    simp [check_error, classifySpec, List.lookup, he, errorTable, RESPONSE_ERROR_MAGIC, RESPONSE_ERROR_UPDATE_PREPARE, RESPONSE_ERROR_AUTH_INVALID, RESPONSE_ERROR_WRITING_FLASH, RESPONSE_ERROR_UPDATE_END, RESPONSE_ERROR_INVALID_BOOTSTRAPPING, RESPONSE_ERROR_WRONG_CURRENT_FLASH_CONFIG, RESPONSE_ERROR_WRONG_NEW_FLASH_CONFIG, RESPONSE_ERROR_ESP8266_NOT_ENOUGH_SPACE, RESPONSE_ERROR_ESP32_NOT_ENOUGH_SPACE, RESPONSE_ERROR_NO_UPDATE_PARTITION, RESPONSE_ERROR_MD5_MISMATCH, RESPONSE_ERROR_UNKNOWN]
  by_cases h12 : b = 0xFF
  · subst h12
    simp [check_error, classifySpec, List.lookup, he, errorTable, RESPONSE_ERROR_MAGIC, RESPONSE_ERROR_UPDATE_PREPARE, RESPONSE_ERROR_AUTH_INVALID, RESPONSE_ERROR_WRITING_FLASH, RESPONSE_ERROR_UPDATE_END, RESPONSE_ERROR_INVALID_BOOTSTRAPPING, RESPONSE_ERROR_WRONG_CURRENT_FLASH_CONFIG, RESPONSE_ERROR_WRONG_NEW_FLASH_CONFIG, RESPONSE_ERROR_ESP8266_NOT_ENOUGH_SPACE, RESPONSE_ERROR_ESP32_NOT_ENOUGH_SPACE, RESPONSE_ERROR_NO_UPDATE_PARTITION, RESPONSE_ERROR_MD5_MISMATCH, RESPONSE_ERROR_UNKNOWN]
  have e0 : (b == (128 : Nat)) = false := beq_eq_false_iff_ne.mpr h0
  have e1 : (b == (129 : Nat)) = false := beq_eq_false_iff_ne.mpr h1
  have e2 : (b == (130 : Nat)) = false := beq_eq_false_iff_ne.mpr h2
  have e3 : (b == (131 : Nat)) = false := beq_eq_false_iff_ne.mpr h3
  have e4 : (b == (132 : Nat)) = false := beq_eq_false_iff_ne.mpr h4
  have e5 : (b == (133 : Nat)) = false := beq_eq_false_iff_ne.mpr h5
  have e6 : (b == (134 : Nat)) = false := beq_eq_false_iff_ne.mpr h6
  have e7 : (b == (135 : Nat)) = false := beq_eq_false_iff_ne.mpr h7
  have e8 : (b == (136 : Nat)) = false := beq_eq_false_iff_ne.mpr h8
  have e9 : (b == (137 : Nat)) = false := beq_eq_false_iff_ne.mpr h9
  have e10 : (b == (138 : Nat)) = false := beq_eq_false_iff_ne.mpr h10
  have e11 : (b == (139 : Nat)) = false := beq_eq_false_iff_ne.mpr h11
  have e12 : (b == (255 : Nat)) = false := beq_eq_false_iff_ne.mpr h12
  simp [check_error, classifySpec, List.lookup, he, errorTable, h0, h1, h2, h3, h4, h5, h6, h7, h8, h9, h10, h11, h12, e0, e1, e2, e3, e4, e5, e6, e7, e8, e9, e10, e11, e12,
    RESPONSE_ERROR_MAGIC, RESPONSE_ERROR_UPDATE_PREPARE, RESPONSE_ERROR_AUTH_INVALID, RESPONSE_ERROR_WRITING_FLASH, RESPONSE_ERROR_UPDATE_END, RESPONSE_ERROR_INVALID_BOOTSTRAPPING, RESPONSE_ERROR_WRONG_CURRENT_FLASH_CONFIG, RESPONSE_ERROR_WRONG_NEW_FLASH_CONFIG, RESPONSE_ERROR_ESP8266_NOT_ENOUGH_SPACE, RESPONSE_ERROR_ESP32_NOT_ENOUGH_SPACE, RESPONSE_ERROR_NO_UPDATE_PARTITION, RESPONSE_ERROR_MD5_MISMATCH, RESPONSE_ERROR_UNKNOWN]

theorem classifySpec_ne_indexErr (b : Nat) (expect : List Nat) :
    classifySpec b expect ≠ .indexErr := by
  unfold classifySpec
  split
  · simp
  · cases h : List.lookup b errorTable with
    | some k => simp [h]
    | none =>
      simp only [h]
      split <;> simp

/-- C2: for every status byte and expected set, `check_error` agrees with the
specification's classifier `classifySpec`: the 12 fixed error bytes
0x80–0x8B map to 12 pairwise-distinct named diagnostics, 0xFF maps to the
catch-all unknown diagnostic, any other byte outside the expected set maps
to an Unexpected failure carrying the raw byte, any other byte inside the
expected set is accepted, and with an empty expected set every byte is
accepted; on a one-byte buffer the classification is total — it never
reaches the out-of-bounds outcome. -/
theorem C2_check_error_classification :
    (∀ (b : Nat) (expect : List Nat),
      check_error [b] expect = classifySpec b expect) ∧
    List.Pairwise (· ≠ ·)
      [ErrKind.invalidMagic, .updatePrepare, .authInvalid, .writingFlash,
       .updateEnd, .invalidBootstrapping, .wrongCurrentFlashConfig,
       .wrongNewFlashConfig, .esp8266NotEnoughSpace, .esp32NotEnoughSpace,
       .noUpdatePartition, .md5Mismatch] ∧
    (∀ (b : Nat) (expect : List Nat), check_error [b] expect ≠ .indexErr) :=
  ⟨check_error_eq_classifySpec, by decide, fun b expect => by
    rw [check_error_eq_classifySpec]
    exact classifySpec_ne_indexErr b expect⟩

/-- C9: when the first read of `receive_exactly` yields zero bytes without
an error and the expected set is non-empty, the call ends in the
out-of-bounds outcome (`data[0]` inside `check_error`), which is neither
of the two documented failure families, and the helper does not close the
connection on that path. -/
theorem C9_empty_first_read_indexes_empty_buffer (stream : Nat → RecvOut)
    (amount : Nat) (expect : List Nat) (fuel : Nat)
    (h0 : stream 0 = .bytes []) (hexp : expect ≠ []) :
    receive_exactly stream amount expect fuel = ⟨.indexError, false⟩ := by
  unfold receive_exactly
  have hrd : recv_decode stream 0 1 = .bytes [] := by
    simp [recv_decode, h0]
  rw [hrd]
  dsimp only
  have hce : check_error [] expect = .indexErr := by
    simp [check_error, hexp]
  rw [hce]

/-- C9 witness: a socket whose peer closed before the features byte. -/
theorem C9_witness :
    (fun _ => RecvOut.bytes []) 0 = RecvOut.bytes [] ∧
      ([RESPONSE_HEADER_OK] : List Nat) ≠ [] ∧
      receive_exactly (fun _ => RecvOut.bytes []) 1 [RESPONSE_HEADER_OK] 3 =
        ⟨.indexError, false⟩ :=
  ⟨rfl, by decide,
    C9_empty_first_read_indexes_empty_buffer _ 1 [RESPONSE_HEADER_OK] 3 rfl
      (by decide)⟩

/-- C5 counterexample: on an underlying read error (`OSError` from the very
first `recv`), `receive_exactly` propagates the failure with the connection
still open — the engine does not close on this failure path. -/
theorem C5_counterexample :
    (receive_exactly (fun _ => RecvOut.oserr) 1 [RESPONSE_HEADER_OK] 2).result
        = .ioFailure ∧
    (receive_exactly (fun _ => RecvOut.oserr) 1 [RESPONSE_HEADER_OK] 2).closed
        = false :=
  ⟨rfl, rfl⟩

/-- C5 (amended): the helper closes the connection exactly on first-byte
validation failure; underlying read errors and send errors propagate with
the connection left open. -/
theorem C5_closes_only_on_validation_failure (stream : Nat → RecvOut)
    (amount : Nat) (expect : List Nat) (fuel : Nat) :
    ((receive_exactly stream amount expect fuel).closed = true ↔
      ∃ e, (receive_exactly stream amount expect fuel).result =
        .protocolError e) ∧
    ∀ (out : SendOut) (data : SendData) (msg : String),
      (send_check out data msg).2 = false := by
  constructor
  · unfold receive_exactly
    cases h : recv_decode stream 0 1 with
    | oserr => simp
    | bytes b =>
      dsimp only
      cases hce : check_error b expect with
      | ok =>
        dsimp only
        rcases receiveLoop_cases fuel stream amount 1 b with ⟨d, hd⟩ | h2 | h2
        · rw [hd]
          simp
        · rw [h2]
          simp
        · rw [h2]
          simp
      | err e =>
        dsimp only
        simp
      | indexErr =>
        dsimp only
        simp
  · intro out data msg
    cases out <;> rfl

/-- C6 counterexample: a stream whose peer performed an orderly close
(every `recv` returns zero bytes, no error) with the empty expected set
(as used for the nonce read): no amount of fuel makes `receive_exactly`
reach any outcome — the Python loop never terminates. -/
theorem C6_counterexample :
    ¬ ∃ fuel, (receive_exactly (fun _ => RecvOut.bytes []) 2 [] fuel).result
        ≠ .outOfFuel := by
  have hloop : ∀ (fuel amount k : Nat) (data : List Nat),
      data.length < amount →
      receiveLoop (fun _ => RecvOut.bytes []) amount k data fuel =
        .outOfFuel := by
    intro fuel
    induction fuel with
    | zero =>
      intro amount k data h
      rw [receiveLoop, if_neg (by omega)]
    | succ fuel ih =>
      intro amount k data h
      rw [receiveLoop.eq_def, if_neg (by omega)]
      have : recv_decode (fun _ => RecvOut.bytes []) k (amount - data.length)
          = .bytes [] := by simp [recv_decode]
      rw [this]
      dsimp only
      rw [List.append_nil]
      exact ih amount (k + 1) data h
  rintro ⟨fuel, hne⟩
  apply hne
  unfold receive_exactly
  have hrd : recv_decode (fun _ => RecvOut.bytes []) 0 1 = .bytes [] := by
    simp [recv_decode]
  rw [hrd]
  dsimp only
  have hce : check_error [] [] = .ok := by simp [check_error]
  rw [hce]
  exact hloop fuel 2 1 [] (by simp)

theorem check_error_cons_ne_indexErr (d : Nat) (rest expect : List Nat) :
    check_error (d :: rest) expect ≠ .indexErr := by
  have hhead : check_error (d :: rest) expect = check_error [d] expect := rfl
  rw [hhead, check_error_eq_classifySpec]
  exact classifySpec_ne_indexErr d expect

/-- C6 (amended): for `amount ≥ 1` and any stream in which a successful
read always yields at least one byte, `receive_exactly` (with fuel
`amount + 1`, enough for that many reads) terminates and either returns
exactly `amount` bytes, or fails with the IO failure, or fails with a
protocol error from first-byte validation; if some read can return zero
bytes without an error, the loop need not terminate (see the
counterexample). -/
theorem C6_terminates_when_reads_nonempty (stream : Nat → RecvOut)
    (amount : Nat) (expect : List Nat)
    (hnz : ∀ k b, stream k = .bytes b → b ≠ []) (h1 : 1 ≤ amount) :
    (∃ d, (receive_exactly stream amount expect (amount + 1)).result =
        .ok d ∧ d.length = amount) ∨
    (receive_exactly stream amount expect (amount + 1)).result =
        .ioFailure ∨
    (∃ e, (receive_exactly stream amount expect (amount + 1)).result =
        .protocolError e) := by
  have hloop : ∀ (fuel k : Nat) (data : List Nat),
      data.length ≤ amount → amount ≤ data.length + fuel →
      (∃ d, receiveLoop stream amount k data fuel = .ok d ∧
        d.length = amount) ∨
      receiveLoop stream amount k data fuel = .ioFailure := by
    intro fuel
    induction fuel with
    | zero =>
      intro k data hle hge
      rw [receiveLoop, if_pos (by omega)]
      exact Or.inl ⟨data, rfl, by omega⟩
    | succ fuel ih =>
      intro k data hle hge
      by_cases hdone : amount ≤ data.length
      · rw [receiveLoop.eq_def, if_pos hdone]
        exact Or.inl ⟨data, rfl, by omega⟩
      · rw [receiveLoop.eq_def, if_neg hdone]
        cases hk : stream k with
        | oserr =>
          have : recv_decode stream k (amount - data.length) = .oserr := by
            simp [recv_decode, hk]
          rw [this]
          dsimp only
          simp
        | bytes b =>
          have hbne : b ≠ [] := hnz k b hk
          have : recv_decode stream k (amount - data.length) =
              .bytes (b.take (amount - data.length)) := by
            simp [recv_decode, hk]
          rw [this]
          dsimp only
          apply ih (k + 1)
          · simp only [List.length_append, List.length_take]
            omega
          · have hb1 : 1 ≤ b.length := by
              cases b with
              | nil => exact absurd rfl hbne
              | cons a l => simp
            simp only [List.length_append, List.length_take]
            omega
  unfold receive_exactly
  cases h0 : stream 0 with
  | oserr =>
    have : recv_decode stream 0 1 = .oserr := by simp [recv_decode, h0]
    rw [this]
    exact Or.inr (Or.inl rfl)
  | bytes b =>
    have hbne : b ≠ [] := hnz 0 b h0
    have hrd : recv_decode stream 0 1 = .bytes (b.take 1) := by
      simp [recv_decode, h0]
    rw [hrd]
    dsimp only
    have hb1 : (b.take 1).length = 1 := by
      cases b with
      | nil => exact absurd rfl hbne
      | cons a l => simp
    cases hce : check_error (b.take 1) expect with
    | indexErr =>
      cases hb : b.take 1 with
      | nil =>
        rw [hb] at hb1
        simp at hb1
      | cons d rest =>
        rw [hb] at hce
        exact absurd hce (check_error_cons_ne_indexErr d rest expect)
    | err e => exact Or.inr (Or.inr ⟨e, rfl⟩)
    | ok =>
      rcases hloop (amount + 1) 1 (b.take 1) (by omega) (by omega) with
        ⟨d, hd, hdl⟩ | hio
      · exact Or.inl ⟨d, by simp [hd], hdl⟩
      · exact Or.inr (Or.inl (by simp [hio]))

/-- C6 witness: a well-behaved stream that always has data available. -/
theorem C6_witness :
    (∀ k b, (fun _ : Nat => RecvOut.bytes [7, 8, 9]) k = RecvOut.bytes b →
      b ≠ []) ∧ (1 : Nat) ≤ 2 ∧
    ((∃ d, (receive_exactly (fun _ => RecvOut.bytes [7, 8, 9]) 2 []
        (2 + 1)).result = .ok d ∧ d.length = 2) ∨
      (receive_exactly (fun _ => RecvOut.bytes [7, 8, 9]) 2 []
        (2 + 1)).result = .ioFailure ∨
      (∃ e, (receive_exactly (fun _ => RecvOut.bytes [7, 8, 9]) 2 []
        (2 + 1)).result = .protocolError e)) := by
  refine ⟨?_, by omega, ?_⟩
  · intro k b h
    simp only [RecvOut.bytes.injEq] at h
    subst h
    simp
  · exact C6_terminates_when_reads_nonempty _ 2 []
      (by intro k b h; simp only [RecvOut.bytes.injEq] at h; subst h; simp)
      (by omega)


theorem progressRenders_chain_from (fs : List ℚ) :
    ∀ p : ℤ, List.Chain' (· ≠ ·) (p :: progressRenders (some p) fs) := by
  induction fs with
  | nil =>
    intro p
    simp [progressRenders]
  | cons q qs ih =>
    intro p
    rw [progressRenders]
    by_cases h : some (pyInt ((if 1 ≤ q then 1 else q) * 100)) = some p
    · rw [show ProgressBar_update (some p) q = (some p, none) from by
        unfold ProgressBar_update
        dsimp only
        rw [if_pos h]]
      exact ih p
    · rw [show ProgressBar_update (some p) q
          = (some (pyInt ((if 1 ≤ q then 1 else q) * 100)),
             some (pyInt ((if 1 ≤ q then 1 else q) * 100))) from by
        unfold ProgressBar_update
        dsimp only
        rw [if_neg h]]
      rw [List.chain'_cons]
      refine ⟨fun heq => h ?_, ih _⟩
      rw [heq]

/-- C8: the progress reporter renders only when the truncated integer
percentage of the (clamped) fraction differs from the last rendered one,
so no two consecutive renders carry the same percentage; any fraction ≥ 1
is clamped to render 100; and the update sequence 0.0, 0.001, 0.02, 1.0
renders exactly 0, 2, 100. -/
theorem C8_progress_dedup_clamp :
    (∀ fs : List ℚ, List.Chain' (· ≠ ·) (progressRenders none fs)) ∧
    (∀ (st : Option ℤ) (q : ℚ), 1 ≤ q →
      (ProgressBar_update st q).2 = none ∨
        (ProgressBar_update st q).2 = some 100) ∧
    progressRenders none [0, 1 / 1000, 1 / 50, 1] = [0, 2, 100] := by
  refine ⟨?_, ?_, ?_⟩
  · intro fs
    cases fs with
    | nil => simp [progressRenders]
    | cons q qs =>
      rw [progressRenders]
      rw [show ProgressBar_update none q
          = (some (pyInt ((if 1 ≤ q then 1 else q) * 100)),
             some (pyInt ((if 1 ≤ q then 1 else q) * 100))) from by
        unfold ProgressBar_update
        dsimp only
        rw [if_neg (by simp)]]
      exact progressRenders_chain_from qs _
  · intro st q hq
    unfold ProgressBar_update
    dsimp only
    rw [if_pos hq]
    have h100 : pyInt ((1 : ℚ) * 100) = 100 := by norm_num [pyInt]
    rw [h100]
    split
    · exact Or.inl rfl
    · exact Or.inr rfl
  · have u0 : ProgressBar_update none 0 = (some 0, some 0) := by
      unfold ProgressBar_update
      norm_num [pyInt]
      simp
    have u1 : ProgressBar_update (some 0) (1 / 1000) = (some 0, none) := by
      unfold ProgressBar_update
      norm_num [pyInt]
    have u2 : ProgressBar_update (some 0) (1 / 50) = (some 2, some 2) := by
      unfold ProgressBar_update
      norm_num [pyInt]
    have u3 : ProgressBar_update (some 2) 1 = (some 100, some 100) := by
      unfold ProgressBar_update
      norm_num [pyInt]
    simp only [progressRenders, u0, u1, u2, u3]

/-- C8 witness: a clamped call on a fraction above 1. -/
theorem C8_witness :
    (1 : ℚ) ≤ 3 / 2 ∧
      ((ProgressBar_update (some 0) (3 / 2)).2 = none ∨
        (ProgressBar_update (some 0) (3 / 2)).2 = some 100) :=
  ⟨by norm_num, C8_progress_dedup_clamp.2.1 (some 0) (3 / 2) (by norm_num)⟩

theorem engineRecv_chunk_ok :
    engineRecv (.bytes [RESPONSE_CHUNK_OK]) 1 [RESPONSE_CHUNK_OK] =
      ⟨.ok [RESPONSE_CHUNK_OK], false⟩ := by decide

theorem transferLoop_trace (version upload_size : Nat)
    (chunkAcks : Nat → RecvOut)
    (hacks : ∀ i, chunkAcks i = .bytes [RESPONSE_CHUNK_OK]) :
    ∀ (n : Nat) (contents : List Nat), contents.length ≤ n →
      ∀ (offset ackIdx : Nat),
      transferLoop version upload_size chunkAcks contents offset ackIdx =
        (chunkTrace version upload_size (chunksOf UPLOAD_BLOCK_SIZE contents)
          offset, none) := by
  intro n
  induction n with
  | zero =>
    intro contents hlen offset ackIdx
    have hnil : contents = [] := List.length_eq_zero.mp (Nat.le_zero.mp hlen)
    subst hnil
    simp [transferLoop, chunksOf, chunksOfAux, chunkTrace]
  | succ n ih =>
    intro contents hlen offset ackIdx
    cases contents with
    | nil => simp [transferLoop, chunksOf, chunksOfAux, chunkTrace]
    | cons x xs =>
      have hdrop : (x :: xs).drop UPLOAD_BLOCK_SIZE
          = xs.drop (UPLOAD_BLOCK_SIZE - 1) := rfl
      have htake : (x :: xs).take UPLOAD_BLOCK_SIZE
          = x :: xs.take (UPLOAD_BLOCK_SIZE - 1) := rfl
      have hlen2 : (xs.drop (UPLOAD_BLOCK_SIZE - 1)).length ≤ n := by
        simp only [List.length_drop, List.length_cons] at hlen ⊢
        omega
      have ihs := ih (xs.drop (UPLOAD_BLOCK_SIZE - 1)) hlen2
      rw [transferLoop, chunksOf_cons, chunkTrace]
      rw [hacks ackIdx, engineRecv_chunk_ok]
      by_cases hv : OTA_VERSION_2_0 ≤ version
      · simp only [if_pos hv, htake, hdrop, ihs]
        simp [hv]
      · simp only [if_neg hv, htake, hdrop, ihs]
        simp [hv]

theorem chunkTrace_ack_count (version upload_size : Nat) :
    ∀ (cs : List (List Nat)) (offset : Nat),
      countChunkAcks (chunkTrace version upload_size cs offset) =
        if OTA_VERSION_2_0 ≤ version then cs.length else 0 := by
  intro cs
  induction cs with
  | nil =>
    intro offset
    simp [chunkTrace, countChunkAcks]
  | cons c rest ih =>
    intro offset
    rw [chunkTrace]
    by_cases hv : OTA_VERSION_2_0 ≤ version
    · simp only [if_pos hv, countChunkAcks, List.count_cons, List.count_append]
      have := ih (offset + c.length)
      simp only [countChunkAcks, if_pos hv] at this
      simp [this]
      omega
    · simp only [if_neg hv, countChunkAcks, List.count_cons, List.count_append]
      have := ih (offset + c.length)
      simp only [countChunkAcks, if_neg hv] at this
      simp [this]

theorem chunksOf_block_length :
    ∀ (n : Nat) (l : List Nat), l.length ≤ n →
      (chunksOf UPLOAD_BLOCK_SIZE l).length =
        (l.length + (UPLOAD_BLOCK_SIZE - 1)) / UPLOAD_BLOCK_SIZE := by
  intro n
  induction n with
  | zero =>
    intro l hlen
    have hnil : l = [] := List.length_eq_zero.mp (Nat.le_zero.mp hlen)
    subst hnil
    simp [chunksOf, chunksOfAux, UPLOAD_BLOCK_SIZE]
  | succ n ih =>
    intro l hlen
    cases l with
    | nil => simp [chunksOf, chunksOfAux, UPLOAD_BLOCK_SIZE]
    | cons x xs =>
      rw [chunksOf_cons]
      have hlen2 : (xs.drop (UPLOAD_BLOCK_SIZE - 1)).length ≤ n := by
        simp only [List.length_drop, List.length_cons] at hlen ⊢
        omega
      have := ih (xs.drop (UPLOAD_BLOCK_SIZE - 1)) hlen2
      simp only [List.length_cons, List.length_drop] at this ⊢
      rw [this]
      simp only [UPLOAD_BLOCK_SIZE]
      omega

/-- C1: with every chunk acknowledged, the Transfer loop sends the payload
in successive 8 KiB chunks, reading exactly one "chunk OK" byte after each
chunk and before the next when the negotiated version is ≥ 2 and none when
it is 1, so the number of chunk-acknowledgement reads is
ceil(payloadLength / 8192) for version ≥ 2 and 0 otherwise. -/
theorem C1_chunk_ack_reads (version upload_size : Nat)
    (chunkAcks : Nat → RecvOut) (contents : List Nat)
    (hne : contents ≠ [])
    (hacks : ∀ i, chunkAcks i = .bytes [RESPONSE_CHUNK_OK]) :
    transferLoop version upload_size chunkAcks contents 0 0 =
      (chunkTrace version upload_size (chunksOf UPLOAD_BLOCK_SIZE contents) 0,
        none) ∧
    countChunkAcks
        (transferLoop version upload_size chunkAcks contents 0 0).1 =
      if OTA_VERSION_2_0 ≤ version then
        (contents.length + (UPLOAD_BLOCK_SIZE - 1)) / UPLOAD_BLOCK_SIZE
      else 0 := by
  have htr := transferLoop_trace version upload_size chunkAcks hacks
    contents.length contents (Nat.le_refl _) 0 0
  refine ⟨htr, ?_⟩
  rw [htr]
  rw [chunkTrace_ack_count]
  rw [chunksOf_block_length contents.length contents (Nat.le_refl _)]

/-- C1 witness: a 3-byte payload under protocol version 2 gets exactly one
chunk-acknowledgement read. -/
theorem C1_witness :
    ([1, 2, 3] : List Nat) ≠ [] ∧
    (∀ i, (fun _ : Nat => RecvOut.bytes [RESPONSE_CHUNK_OK]) i =
      RecvOut.bytes [RESPONSE_CHUNK_OK]) ∧
    countChunkAcks
        (transferLoop 2 3 (fun _ => RecvOut.bytes [RESPONSE_CHUNK_OK])
          [1, 2, 3] 0 0).1 =
      if OTA_VERSION_2_0 ≤ 2 then
        (([1, 2, 3] : List Nat).length + (UPLOAD_BLOCK_SIZE - 1)) /
          UPLOAD_BLOCK_SIZE
      else 0 :=
  ⟨by decide, fun _ => rfl,
    (C1_chunk_ack_reads 2 3 _ [1, 2, 3] (by decide) (fun _ => rfl)).2⟩

theorem perform_ota_split (gz : List Nat → List Nat) (password : String)
    (fc : List Nat) (rv : String) (r : DeviceResponses) (v f : Nat)
    (hv : r.version = .bytes [RESPONSE_OK, v]) (hvv : v = 1 ∨ v = 2)
    (hf : r.features = .bytes [f])
    (hff : f = RESPONSE_HEADER_OK ∨ f = RESPONSE_SUPPORTS_COMPRESSION) :
    perform_ota gz password fc rv r =
      (.send "magic bytes" MAGIC_BYTES :: .recvA "version" 2 ::
        .send "features" [FEATURE_SUPPORTS_COMPRESSION] ::
        .recvA "features" 1 ::
        (otaAuth password rv v
          (if f = RESPONSE_SUPPORTS_COMPRESSION then gz fc else fc) r).1,
       (otaAuth password rv v
          (if f = RESPONSE_SUPPORTS_COMPRESSION then gz fc else fc) r).2) := by
  have hV : engineRecv (.bytes [RESPONSE_OK, v]) 2 [RESPONSE_OK]
      = ⟨.ok [RESPONSE_OK, v], false⟩ :=
    engineRecv_ok [RESPONSE_OK, v] 2 [RESPONSE_OK] (by omega) (by simp)
      (show check_error [RESPONSE_OK] [RESPONSE_OK] = CheckResult.ok by decide)
  have hF : engineRecv (.bytes [f]) 1
      [RESPONSE_HEADER_OK, RESPONSE_SUPPORTS_COMPRESSION]
      = ⟨.ok [f], false⟩ := by
    refine engineRecv_ok [f] 1 _ (by omega) (by simp) ?_
    rcases hff with h | h
    · subst h
      decide
    · subst h
      decide
  have hmem : v ∈ [OTA_VERSION_1_0, OTA_VERSION_2_0] := by
    rcases hvv with h | h <;> simp [h, OTA_VERSION_1_0, OTA_VERSION_2_0]
  unfold perform_ota recvStep emit
  rw [hv, hV]
  dsimp only
  rw [if_pos hmem]
  rw [hf, hF]

theorem otaAuth_skip (password rv : String) (version : Nat) (uc : List Nat)
    (r : DeviceResponses) (ha : r.auth = .bytes [RESPONSE_AUTH_OK]) :
    otaAuth password rv version uc r =
      (.recvA "auth" 1 :: (otaUpload version uc r).1,
       (otaUpload version uc r).2) := by
  have hA : engineRecv (.bytes [RESPONSE_AUTH_OK]) 1
      [RESPONSE_REQUEST_AUTH, RESPONSE_AUTH_OK]
      = ⟨.ok [RESPONSE_AUTH_OK], false⟩ := by decide
  unfold otaAuth recvStep
  rw [ha, hA]
  dsimp only
  rw [if_neg (by decide)]

theorem otaAuth_missing_password (rv : String) (version : Nat)
    (uc : List Nat) (r : DeviceResponses)
    (ha : r.auth = .bytes [RESPONSE_REQUEST_AUTH]) :
    otaAuth "" rv version uc r =
      ([.recvA "auth" 1],
       .otaError "ESP requests password, but no password given!") := by
  have hA : engineRecv (.bytes [RESPONSE_REQUEST_AUTH]) 1
      [RESPONSE_REQUEST_AUTH, RESPONSE_AUTH_OK]
      = ⟨.ok [RESPONSE_REQUEST_AUTH], false⟩ := by decide
  unfold otaAuth recvStep
  rw [ha, hA]
  dsimp only
  rw [if_pos rfl, if_pos rfl]

theorem otaAuth_digest (password rv : String) (version : Nat) (uc : List Nat)
    (r : DeviceResponses) (nb : List Nat) (hpw : password ≠ "")
    (ha : r.auth = .bytes [RESPONSE_REQUEST_AUTH]) (hn : r.nonce = .bytes nb)
    (hlen : nb.length = 32) :
    sentData "auth result" (otaAuth password rv version uc r).1 =
      some (strBytes (md5hex (strBytes password ++ nb ++
        strBytes (md5hex (strBytes rv))))) := by
  have hA : engineRecv (.bytes [RESPONSE_REQUEST_AUTH]) 1
      [RESPONSE_REQUEST_AUTH, RESPONSE_AUTH_OK]
      = ⟨.ok [RESPONSE_REQUEST_AUTH], false⟩ := by decide
  have hN : engineRecv (.bytes nb) 32 [] = ⟨.ok nb, false⟩ := by
    have h2 : (32 : Nat) ≤ nb.length := by omega
    have := engineRecv_ok nb 32 [] (by omega) h2 (by simp [check_error])
    rwa [show nb.take 32 = nb from by rw [← hlen, List.take_length]] at this
  unfold otaAuth recvStep emit
  rw [ha, hA]
  dsimp only
  rw [if_pos rfl, if_neg hpw]
  rw [hn, hN]
  dsimp only
  simp [sentData]

theorem otaUpload_sends (version : Nat) (uc : List Nat) (r : DeviceResponses)
    (hp : r.prepare = .bytes [RESPONSE_UPDATE_PREPARE_OK]) :
    sentData "binary size" (otaUpload version uc r).1 =
      some (upload_size_encoded uc.length) ∧
    sentData "file checksum" (otaUpload version uc r).1 =
      some (strBytes (md5hex uc)) := by
  have hP : engineRecv (.bytes [RESPONSE_UPDATE_PREPARE_OK]) 1
      [RESPONSE_UPDATE_PREPARE_OK]
      = ⟨.ok [RESPONSE_UPDATE_PREPARE_OK], false⟩ := by decide
  unfold otaUpload recvStep emit
  rw [hp, hP]
  dsimp only
  constructor
  · simp [sentData]
  · simp [sentData]

/-- C3: compression is turned on iff the feature-negotiation response byte
is literally 0x46; in that case the 4-byte big-endian length sent as
"binary size" and the MD5 hex digest sent as "file checksum" are computed
over the gzip-compressed payload, never the original; with response 0x40
the original payload's length and MD5 are used. -/
theorem C3_compression_checksum_length (gz : List Nat → List Nat)
    (password : String) (fc : List Nat) (rv : String) (r : DeviceResponses)
    (v : Nat) (hv : r.version = .bytes [RESPONSE_OK, v]) (hvv : v = 1 ∨ v = 2)
    (ha : r.auth = .bytes [RESPONSE_AUTH_OK])
    (hp : r.prepare = .bytes [RESPONSE_UPDATE_PREPARE_OK]) :
    (r.features = .bytes [RESPONSE_SUPPORTS_COMPRESSION] →
      sentData "binary size" (perform_ota gz password fc rv r).1 =
        some (upload_size_encoded (gz fc).length) ∧
      sentData "file checksum" (perform_ota gz password fc rv r).1 =
        some (strBytes (md5hex (gz fc)))) ∧
    (r.features = .bytes [RESPONSE_HEADER_OK] →
      sentData "binary size" (perform_ota gz password fc rv r).1 =
        some (upload_size_encoded fc.length) ∧
      sentData "file checksum" (perform_ota gz password fc rv r).1 =
        some (strBytes (md5hex fc))) := by
  constructor
  · intro hf
    rw [perform_ota_split gz password fc rv r v RESPONSE_SUPPORTS_COMPRESSION
      hv hvv hf (Or.inr rfl)]
    rw [if_pos rfl]
    rw [otaAuth_skip password rv v (gz fc) r ha]
    have hu := otaUpload_sends v (gz fc) r hp
    generalize hX : (otaUpload v (gz fc) r).1 = X at hu ⊢
    dsimp only
    exact ⟨by simp [sentData, hu.1], by simp [sentData, hu.2]⟩
  · intro hf
    rw [perform_ota_split gz password fc rv r v RESPONSE_HEADER_OK
      hv hvv hf (Or.inl rfl)]
    rw [if_neg (show RESPONSE_HEADER_OK ≠ RESPONSE_SUPPORTS_COMPRESSION by
      decide)]
    rw [otaAuth_skip password rv v fc r ha]
    have hu := otaUpload_sends v fc r hp
    generalize hX : (otaUpload v fc r).1 = X at hu ⊢
    dsimp only
    exact ⟨by simp [sentData, hu.1], by simp [sentData, hu.2]⟩

/-- C3 witness: compression accepted on an otherwise standard run. -/
theorem C3_witness :
    DeviceResponses.version
        ⟨.bytes [RESPONSE_OK, 1], .bytes [RESPONSE_SUPPORTS_COMPRESSION],
         .bytes [RESPONSE_AUTH_OK], .bytes [], .bytes [RESPONSE_AUTH_OK],
         .bytes [RESPONSE_UPDATE_PREPARE_OK], .bytes [RESPONSE_BIN_MD5_OK],
         fun _ => .bytes [RESPONSE_CHUNK_OK], .bytes [RESPONSE_RECEIVE_OK],
         .bytes [RESPONSE_UPDATE_END_OK]⟩ = .bytes [RESPONSE_OK, 1] ∧
    sentData "binary size"
        (perform_ota (fun l => 9 :: l) "" [5] ""
          ⟨.bytes [RESPONSE_OK, 1], .bytes [RESPONSE_SUPPORTS_COMPRESSION],
           .bytes [RESPONSE_AUTH_OK], .bytes [], .bytes [RESPONSE_AUTH_OK],
           .bytes [RESPONSE_UPDATE_PREPARE_OK], .bytes [RESPONSE_BIN_MD5_OK],
           fun _ => .bytes [RESPONSE_CHUNK_OK], .bytes [RESPONSE_RECEIVE_OK],
           .bytes [RESPONSE_UPDATE_END_OK]⟩).1 =
      some (upload_size_encoded ((fun l => 9 :: l) [5]).length) :=
  ⟨rfl,
    ((C3_compression_checksum_length (fun l => 9 :: l) "" [5] "" _ 1 rfl
      (Or.inl rfl) rfl rfl).1 rfl).1⟩

/-- C4: when authentication is requested, the digest sent as "auth result"
is the lowercase hex text of the MD5 digest of password ‖ serverNonce ‖
clientNonce, in that order; and it is deterministic — any two runs with the
same password, server nonce and random seam send the same hex text, even
if the payload, gzip collaborator or later device responses differ. -/
theorem C4_auth_digest (gz : List Nat → List Nat) (password : String)
    (fc : List Nat) (rv : String) (r : DeviceResponses) (v f : Nat)
    (nb : List Nat) (hv : r.version = .bytes [RESPONSE_OK, v])
    (hvv : v = 1 ∨ v = 2) (hf : r.features = .bytes [f])
    (hff : f = RESPONSE_HEADER_OK ∨ f = RESPONSE_SUPPORTS_COMPRESSION)
    (hpw : password ≠ "") (ha : r.auth = .bytes [RESPONSE_REQUEST_AUTH])
    (hn : r.nonce = .bytes nb) (hlen : nb.length = 32) :
    sentData "auth result" (perform_ota gz password fc rv r).1 =
      some (strBytes (md5hex (strBytes password ++ nb ++
        strBytes (md5hex (strBytes rv))))) ∧
    (∀ (gz2 : List Nat → List Nat) (fc2 : List Nat) (r2 : DeviceResponses)
        (v2 f2 : Nat),
      r2.version = .bytes [RESPONSE_OK, v2] → (v2 = 1 ∨ v2 = 2) →
      r2.features = .bytes [f2] →
      (f2 = RESPONSE_HEADER_OK ∨ f2 = RESPONSE_SUPPORTS_COMPRESSION) →
      r2.auth = .bytes [RESPONSE_REQUEST_AUTH] → r2.nonce = .bytes nb →
      sentData "auth result" (perform_ota gz2 password fc2 rv r2).1 =
        sentData "auth result" (perform_ota gz password fc rv r).1) := by
  have hgen : ∀ (gz3 : List Nat → List Nat) (fc3 : List Nat)
      (r3 : DeviceResponses) (v3 f3 : Nat),
      r3.version = .bytes [RESPONSE_OK, v3] → (v3 = 1 ∨ v3 = 2) →
      r3.features = .bytes [f3] →
      (f3 = RESPONSE_HEADER_OK ∨ f3 = RESPONSE_SUPPORTS_COMPRESSION) →
      r3.auth = .bytes [RESPONSE_REQUEST_AUTH] → r3.nonce = .bytes nb →
      sentData "auth result" (perform_ota gz3 password fc3 rv r3).1 =
        some (strBytes (md5hex (strBytes password ++ nb ++
          strBytes (md5hex (strBytes rv))))) := by
    intro gz3 fc3 r3 v3 f3 hv3 hvv3 hf3 hff3 ha3 hn3
    rw [perform_ota_split gz3 password fc3 rv r3 v3 f3 hv3 hvv3 hf3 hff3]
    have hd := otaAuth_digest password rv v3
      (if f3 = RESPONSE_SUPPORTS_COMPRESSION then gz3 fc3 else fc3) r3 nb
      hpw ha3 hn3 hlen
    generalize hX : (otaAuth password rv v3
      (if f3 = RESPONSE_SUPPORTS_COMPRESSION then gz3 fc3 else fc3) r3).1
      = X at hd ⊢
    dsimp only
    simp [sentData, hd]
  refine ⟨hgen gz fc r v f hv hvv hf hff ha hn, ?_⟩
  intro gz2 fc2 r2 v2 f2 hv2 hvv2 hf2 hff2 ha2 hn2
  rw [hgen gz2 fc2 r2 v2 f2 hv2 hvv2 hf2 hff2 ha2 hn2,
    hgen gz fc r v f hv hvv hf hff ha hn]

/-- C4 witness: a concrete authenticated run with password "test" and a
32-byte nonce of ASCII letters a. -/
theorem C4_witness :
    ("test" : String) ≠ "" ∧ (List.replicate 32 97).length = 32 ∧
    sentData "auth result"
        (perform_ota (fun l => l) "test" [5] "0.5"
          ⟨.bytes [RESPONSE_OK, 2], .bytes [RESPONSE_HEADER_OK],
           .bytes [RESPONSE_REQUEST_AUTH], .bytes (List.replicate 32 97),
           .bytes [RESPONSE_AUTH_OK], .bytes [RESPONSE_UPDATE_PREPARE_OK],
           .bytes [RESPONSE_BIN_MD5_OK], fun _ => .bytes [RESPONSE_CHUNK_OK],
           .bytes [RESPONSE_RECEIVE_OK], .bytes [RESPONSE_UPDATE_END_OK]⟩).1 =
      some (strBytes (md5hex (strBytes "test" ++ List.replicate 32 97 ++
        strBytes (md5hex (strBytes "0.5"))))) :=
  ⟨by decide, by simp,
    (C4_auth_digest (fun l => l) "test" [5] "0.5" _ 2 RESPONSE_HEADER_OK
      (List.replicate 32 97) rfl (Or.inr rfl) rfl (Or.inl rfl) (by decide)
      rfl rfl (by simp)).1⟩

/-- C7: if the device requests authentication and no password was given,
the engine fails with the missing-credential error before reading the
32-byte nonce and before sending any authentication bytes. -/
theorem C7_missing_password (gz : List Nat → List Nat) (fc : List Nat)
    (rv : String) (r : DeviceResponses) (v f : Nat)
    (hv : r.version = .bytes [RESPONSE_OK, v]) (hvv : v = 1 ∨ v = 2)
    (hf : r.features = .bytes [f])
    (hff : f = RESPONSE_HEADER_OK ∨ f = RESPONSE_SUPPORTS_COMPRESSION)
    (ha : r.auth = .bytes [RESPONSE_REQUEST_AUTH]) :
    perform_ota gz "" fc rv r =
      ([.send "magic bytes" MAGIC_BYTES, .recvA "version" 2,
        .send "features" [FEATURE_SUPPORTS_COMPRESSION], .recvA "features" 1,
        .recvA "auth" 1],
       .otaError "ESP requests password, but no password given!") ∧
    (∀ n, Act.recvA "authentication nonce" n ∉
      (perform_ota gz "" fc rv r).1) ∧
    (∀ d, Act.send "auth cnonce" d ∉ (perform_ota gz "" fc rv r).1 ∧
      Act.send "auth result" d ∉ (perform_ota gz "" fc rv r).1) := by
  have hmain : perform_ota gz "" fc rv r =
      ([.send "magic bytes" MAGIC_BYTES, .recvA "version" 2,
        .send "features" [FEATURE_SUPPORTS_COMPRESSION], .recvA "features" 1,
        .recvA "auth" 1],
       .otaError "ESP requests password, but no password given!") := by
    rw [perform_ota_split gz "" fc rv r v f hv hvv hf hff]
    rw [otaAuth_missing_password rv v
      (if f = RESPONSE_SUPPORTS_COMPRESSION then gz fc else fc) r ha]
  refine ⟨hmain, ?_, ?_⟩
  · intro n
    rw [hmain]
    simp
  · intro d
    rw [hmain]
    constructor <;> simp

/-- C7 witness: a concrete run with no password where the device requests
authentication. -/
theorem C7_witness :
    DeviceResponses.auth
        ⟨.bytes [RESPONSE_OK, 1], .bytes [RESPONSE_HEADER_OK],
         .bytes [RESPONSE_REQUEST_AUTH], .bytes (List.replicate 32 97),
         .bytes [RESPONSE_AUTH_OK], .bytes [RESPONSE_UPDATE_PREPARE_OK],
         .bytes [RESPONSE_BIN_MD5_OK], fun _ => .bytes [RESPONSE_CHUNK_OK],
         .bytes [RESPONSE_RECEIVE_OK], .bytes [RESPONSE_UPDATE_END_OK]⟩ =
      .bytes [RESPONSE_REQUEST_AUTH] ∧
    perform_ota (fun l => l) "" [5] "0.5"
        ⟨.bytes [RESPONSE_OK, 1], .bytes [RESPONSE_HEADER_OK],
         .bytes [RESPONSE_REQUEST_AUTH], .bytes (List.replicate 32 97),
         .bytes [RESPONSE_AUTH_OK], .bytes [RESPONSE_UPDATE_PREPARE_OK],
         .bytes [RESPONSE_BIN_MD5_OK], fun _ => .bytes [RESPONSE_CHUNK_OK],
         .bytes [RESPONSE_RECEIVE_OK], .bytes [RESPONSE_UPDATE_END_OK]⟩ =
      ([.send "magic bytes" MAGIC_BYTES, .recvA "version" 2,
        .send "features" [FEATURE_SUPPORTS_COMPRESSION], .recvA "features" 1,
        .recvA "auth" 1],
       .otaError "ESP requests password, but no password given!") :=
  ⟨rfl,
    (C7_missing_password (fun l => l) [5] "0.5" _ 1 RESPONSE_HEADER_OK rfl
      (Or.inl rfl) rfl (Or.inl rfl) rfl).1⟩

/-- C10: for an empty payload the Transfer loop sends no chunks and never
calls the progress update (so the byte ratio is never evaluated), and the
engine proceeds directly to the Finalize step and succeeds. -/
theorem C10_empty_payload (gz : List Nat → List Nat) (password : String)
    (rv : String) (r : DeviceResponses) (v : Nat)
    (hv : r.version = .bytes [RESPONSE_OK, v]) (hvv : v = 1 ∨ v = 2)
    (hf : r.features = .bytes [RESPONSE_HEADER_OK])
    (ha : r.auth = .bytes [RESPONSE_AUTH_OK])
    (hp : r.prepare = .bytes [RESPONSE_UPDATE_PREPARE_OK])
    (hc : r.checksum = .bytes [RESPONSE_BIN_MD5_OK])
    (hrok : r.receiveOk = .bytes [RESPONSE_RECEIVE_OK])
    (hue : r.updateEnd = .bytes [RESPONSE_UPDATE_END_OK]) :
    (perform_ota gz password [] rv r).2 = .success ∧
    (perform_ota gz password [] rv r).1.filter Act.isSendChunk = [] ∧
    (perform_ota gz password [] rv r).1.filter Act.isProgressUpdate = [] ∧
    Act.recvA "receive OK" 1 ∈ (perform_ota gz password [] rv r).1 := by
  have hP : engineRecv (.bytes [RESPONSE_UPDATE_PREPARE_OK]) 1
      [RESPONSE_UPDATE_PREPARE_OK]
      = ⟨.ok [RESPONSE_UPDATE_PREPARE_OK], false⟩ := by decide
  have hC : engineRecv (.bytes [RESPONSE_BIN_MD5_OK]) 1
      [RESPONSE_BIN_MD5_OK] = ⟨.ok [RESPONSE_BIN_MD5_OK], false⟩ := by decide
  have hR : engineRecv (.bytes [RESPONSE_RECEIVE_OK]) 1
      [RESPONSE_RECEIVE_OK] = ⟨.ok [RESPONSE_RECEIVE_OK], false⟩ := by decide
  have hU : engineRecv (.bytes [RESPONSE_UPDATE_END_OK]) 1
      [RESPONSE_UPDATE_END_OK] = ⟨.ok [RESPONSE_UPDATE_END_OK], false⟩ := by
    decide
  have hmain : perform_ota gz password [] rv r =
      ([.send "magic bytes" MAGIC_BYTES, .recvA "version" 2,
        .send "features" [FEATURE_SUPPORTS_COMPRESSION], .recvA "features" 1,
        .recvA "auth" 1,
        .send "binary size" (upload_size_encoded 0), .recvA "binary size" 1,
        .send "file checksum" (strBytes (md5hex [])),
        .recvA "file checksum" 1, .progressDone, .recvA "receive OK" 1,
        .recvA "Update end" 1, .send "end acknowledgement" [RESPONSE_OK]],
       .success) := by
    rw [perform_ota_split gz password [] rv r v RESPONSE_HEADER_OK hv hvv hf
      (Or.inl rfl)]
    rw [if_neg (show RESPONSE_HEADER_OK ≠ RESPONSE_SUPPORTS_COMPRESSION by
      decide)]
    rw [otaAuth_skip password rv v [] r ha]
    unfold otaUpload otaFinalize recvStep emit
    rw [hp, hP, hc, hC, hrok, hR, hue, hU]
    dsimp only
    rw [show transferLoop v ([] : List Nat).length r.chunkAcks [] 0 0
        = ([], none) from by rw [transferLoop]]
    dsimp only
    simp
  rw [hmain]
  refine ⟨rfl, ?_, ?_, ?_⟩
  · simp [List.filter, Act.isSendChunk]
  · simp [List.filter, Act.isProgressUpdate]
  · simp

/-- C10 witness: a concrete empty-payload run. -/
theorem C10_witness :
    DeviceResponses.features
        ⟨.bytes [RESPONSE_OK, 1], .bytes [RESPONSE_HEADER_OK],
         .bytes [RESPONSE_AUTH_OK], .bytes [], .bytes [RESPONSE_AUTH_OK],
         .bytes [RESPONSE_UPDATE_PREPARE_OK], .bytes [RESPONSE_BIN_MD5_OK],
         fun _ => .bytes [RESPONSE_CHUNK_OK], .bytes [RESPONSE_RECEIVE_OK],
         .bytes [RESPONSE_UPDATE_END_OK]⟩ = .bytes [RESPONSE_HEADER_OK] ∧
    (perform_ota (fun l => l) "" [] "0.5"
        ⟨.bytes [RESPONSE_OK, 1], .bytes [RESPONSE_HEADER_OK],
         .bytes [RESPONSE_AUTH_OK], .bytes [], .bytes [RESPONSE_AUTH_OK],
         .bytes [RESPONSE_UPDATE_PREPARE_OK], .bytes [RESPONSE_BIN_MD5_OK],
         fun _ => .bytes [RESPONSE_CHUNK_OK], .bytes [RESPONSE_RECEIVE_OK],
         .bytes [RESPONSE_UPDATE_END_OK]⟩).2 = .success :=
  ⟨rfl,
    (C10_empty_payload (fun l => l) "" "0.5" _ 1 rfl (Or.inl rfl) rfl rfl rfl
      rfl rfl rfl).1⟩

/-- Known-vector check of the MD5 embedding (RFC 1321 test suite). -/
theorem md5hex_known_vector :
    md5hex (strBytes "abc") = "900150983cd24fb0d6963f7d28e17f72" ∧
    md5hex [] = "d41d8cd98f00b204e9800998ecf8427e" := by
  constructor <;> decide
